import Mathlib

set_option maxRecDepth 40000

/-!
Shallow embedding of the webhook ingestion gateway of the
rent-control-manager-backend repository: the route
`src/routes/webhooks/stripe.js` (signature verification, event dispatch,
per-event-type handlers) and the middleware ordering of `src/server.js`
(the webhook router is mounted before the JSON body parser).
-/

namespace Webhook

/-- The payload object `event.data.object`, with the fields the handlers in
`src/routes/webhooks/stripe.js` read.  Fields absent from a given provider
payload are `none` (JavaScript `undefined`). -/
structure EventObject where
  id : String
  customer_email : Option String := none
  amount_total : Option Int := none
  amount : Option Int := none
  amount_paid : Option Int := none
  amount_due : Option Int := none
  currency : Option String := none
  customer : Option String := none
  status : Option String := none
  metadata : List (String × String) := []
  last_payment_error_message : Option String := none
deriving Repr, DecidableEq

/-- `event.data`, the wrapper holding the payload `object`. -/
structure EventData where
  object : EventObject
deriving Repr, DecidableEq

/-- The verified event envelope produced by signature verification:
`{ type, id, data, created }`. -/
structure StripeEvent where
  type : String
  id : String
  data : EventData
  created : Nat
deriving Repr, DecidableEq

/-- Modelled from the spec: the raw request body is opaque bytes
(the provider's canonical JSON event).  We track only whether the bytes
are the canonical serialization of some event envelope (`wellFormed e`)
or bytes that do not parse as an event (`malformed junk`). -/
inductive RawBody where
  | wellFormed (e : StripeEvent)
  | malformed (junk : String)
deriving Repr, DecidableEq

/-- Renders an `Option String` the way a JavaScript template literal renders a
possibly-`undefined` field. -/
def optStr : Option String → String
  | none => "undefined"
  | some s => s

/-- Renders an `Option Int` the way a JavaScript template literal renders a
possibly-`undefined` numeric field. -/
def optNum : Option Int → String
  | none => "undefined"
  | some n => toString n

/-- Renders the metadata key-value list for logging. -/
def metaStr (m : List (String × String)) : String :=
  toString (m.map (fun p => p.1 ++ "=" ++ p.2))

/-- The byte string a `RawBody` denotes: for a well-formed body, the
provider's canonical serialization of the event envelope. -/
def rawBytes : RawBody → String
  | .wellFormed e =>
      e.type ++ "|" ++ e.id ++ "|" ++ toString e.created ++ "|" ++
      e.data.object.id ++ "|" ++ optStr e.data.object.customer_email ++ "|" ++
      optNum e.data.object.amount_total ++ "|" ++ optNum e.data.object.amount ++ "|" ++
      optNum e.data.object.amount_paid ++ "|" ++ optNum e.data.object.amount_due ++ "|" ++
      optStr e.data.object.currency ++ "|" ++ optStr e.data.object.customer ++ "|" ++
      optStr e.data.object.status ++ "|" ++ metaStr e.data.object.metadata ++ "|" ++
      optStr e.data.object.last_payment_error_message
  | .malformed junk => junk

/-- Modelled from the spec: the provider's HMAC over the exact raw bytes and
the shared secret (the concrete hash is irrelevant to every claim; any
deterministic digest of the pair serves). -/
def payloadDigest (rawBody : RawBody) (secret : String) : Nat :=
  ((rawBytes rawBody) ++ "&" ++ secret).toList.foldl
    (fun a c => (a * 31 + c.toNat) % 1000000007) 7

/-- Modelled from the spec: the provider's signature header for a payload
signed at time `t`: a timestamp part and a signature part. -/
def signHeader (t : Nat) (rawBody : RawBody) (secret : String) : String :=
  "t=" ++ toString t ++ ",v1=" ++ toString (payloadDigest rawBody secret)

/-- Splits a character list on a separator character. -/
def splitOnChar (sep : Char) : List Char → List (List Char)
  | [] => [[]]
  | c :: cs =>
      let rest := splitOnChar sep cs
      if c = sep then [] :: rest
      else
        match rest with
        | [] => [[c]]
        | g :: gs => (c :: g) :: gs

/-- The numeric value of a decimal digit character, if it is one. -/
def charDigit? (c : Char) : Option Nat :=
  if '0' ≤ c ∧ c ≤ '9' then some (c.toNat - '0'.toNat) else none

/-- Reads a nonempty list of decimal digits as a natural number. -/
def digitsVal? (l : List Char) : Option Nat :=
  match l with
  | [] => none
  | _ =>
      l.foldl
        (fun acc c =>
          match acc, charDigit? c with
          | some a, some d => some (a * 10 + d)
          | _, _ => none)
        (some 0)

/-- Parses a signature header `t=<timestamp>,v1=<signature>` into its
timestamp and signature parts. -/
def parseSigHeader (s : String) : Option (Nat × Nat) :=
  match splitOnChar ',' s.toList with
  | [tp, vp] =>
      match tp, vp with
      | 't' :: '=' :: tds, 'v' :: '1' :: '=' :: vds =>
          match digitsVal? tds, digitsVal? vds with
          | some t, some v => some (t, v)
          | _, _ => none
      | _, _ => none
  | _ => none

/-- Modelled from the spec: the provider's timestamp tolerance window
(configuration; the SDK default is 300 seconds). -/
def tolerance : Nat := 300

/-- Modelled from the spec: `stripe.webhooks.constructEvent`, the signature
verifier the route delegates to (provider SDK code, not part of this
repository).  A pure function of the raw body, the signature header, the
shared secret and the current wall-clock: it fails with a human-readable
reason on a missing or empty secret, a missing or malformed header, a
signature that does not match the exact raw bytes, or a stale timestamp;
otherwise it returns the parsed event envelope. -/
def constructEvent (rawBody : RawBody) (sigHeader : Option String)
    (secret : Option String) (clock : Nat) : Except String StripeEvent :=
  match secret with
  | none => Except.error "No webhook signing secret provided"
  | some sec =>
      if sec = "" then Except.error "No webhook signing secret provided"
      else
        match sigHeader with
        | none => Except.error "No stripe-signature header value was provided"
        | some sigv =>
            match parseSigHeader sigv with
            | none =>
                Except.error "Unable to extract timestamp and signatures from header"
            | some (t, v) =>
                if v ≠ payloadDigest rawBody sec then
                  Except.error "No signatures found matching the expected signature for payload"
                else if t + tolerance < clock then
                  Except.error "Timestamp outside the tolerance zone"
                else
                  match rawBody with
                  | .wellFormed e => Except.ok e
                  | .malformed _ => Except.error "Invalid JSON payload"

/-- The payment record `handleCheckoutSessionCompleted` constructs
(`paymentRecord` in the source): built and logged, never persisted. -/
structure PaymentRecord where
  sessionId : String
  customerEmail : Option String
  amount : Option Int
  currency : Option String
  status : String
  metadata : List (String × String)
  timestamp : String
deriving Repr, DecidableEq

/-- Modelled from the spec: the record types the Persistence/Notification
Sink would accept (§4.3 table).  The current handlers never write any. -/
inductive SinkRecord where
  | paymentSuccess (intentId : String)
  | paymentFailure (intentId : String) (reason : Option String)
  | completedPayment (record : PaymentRecord)
  | subscriptionState (id : String) (customer : Option String) (status : Option String)
  | recurringSuccess (invoiceId : String)
  | recurringFailure (invoiceId : String)
deriving Repr, DecidableEq

/-- The observable world the gateway acts on: the current wall-clock string
(`new Date().toISOString()`), the console log, and the state of the
Persistence/Notification Sink collaborator. -/
structure WorldState where
  now : String
  log : List String
  sink : List SinkRecord
deriving Repr, DecidableEq

/-- Appends one console-log line (`console.log` / `console.error`). -/
def pushLog (st : WorldState) (line : String) : WorldState :=
  { st with log := st.log ++ [line] }

/-- A handler takes the event payload and the world, and returns the world
after its side effects together with the error it threw, if any
(`none` = returned normally). -/
def Handler : Type :=
  EventObject → WorldState → WorldState × Option String

/-- `handleCheckoutSessionCompleted` from the source: logs the session
details, constructs a `paymentRecord` and logs it; writes nothing to the
sink (the database operations are a TODO placeholder) and never throws. -/
def handleCheckoutSessionCompleted : Handler := fun session st =>
  let st := pushLog st ("💰 Checkout session completed: " ++ session.id)
  let st := pushLog st ("📧 Customer email: " ++ optStr session.customer_email)
  let st := pushLog st ("💵 Amount: " ++ optNum session.amount_total ++ " " ++ optStr session.currency)
  let st := pushLog st ("📋 Metadata: " ++ metaStr session.metadata)
  let paymentRecord : PaymentRecord :=
    { sessionId := session.id
      customerEmail := session.customer_email
      amount := session.amount_total
      currency := session.currency
      status := "completed"
      metadata := session.metadata
      timestamp := st.now }
  let st := pushLog st ("📝 Payment record created: " ++ paymentRecord.sessionId ++
    " " ++ optStr paymentRecord.customerEmail ++ " " ++ optNum paymentRecord.amount ++
    " " ++ optStr paymentRecord.currency ++ " " ++ paymentRecord.status ++
    " " ++ metaStr paymentRecord.metadata ++ " " ++ paymentRecord.timestamp)
  (st, none)

/-- `handlePaymentIntentSucceeded` from the source: logs only. -/
def handlePaymentIntentSucceeded : Handler := fun paymentIntent st =>
  let st := pushLog st ("✅ Payment intent succeeded: " ++ paymentIntent.id)
  let st := pushLog st ("💵 Amount: " ++ optNum paymentIntent.amount ++ " " ++ optStr paymentIntent.currency)
  (st, none)

/-- `handlePaymentIntentFailed` from the source: logs only. -/
def handlePaymentIntentFailed : Handler := fun paymentIntent st =>
  let st := pushLog st ("❌ Payment intent failed: " ++ paymentIntent.id)
  let st := pushLog st ("💵 Amount: " ++ optNum paymentIntent.amount ++ " " ++ optStr paymentIntent.currency)
  let st := pushLog st ("🚫 Failure reason: " ++ optStr paymentIntent.last_payment_error_message)
  (st, none)

/-- `handleSubscriptionCreated` from the source: logs only. -/
def handleSubscriptionCreated : Handler := fun subscription st =>
  let st := pushLog st ("🆕 Subscription created: " ++ subscription.id)
  let st := pushLog st ("👤 Customer: " ++ optStr subscription.customer)
  let st := pushLog st ("📅 Status: " ++ optStr subscription.status)
  (st, none)

/-- `handleSubscriptionUpdated` from the source: logs only. -/
def handleSubscriptionUpdated : Handler := fun subscription st =>
  let st := pushLog st ("🔄 Subscription updated: " ++ subscription.id)
  let st := pushLog st ("📅 Status: " ++ optStr subscription.status)
  (st, none)

/-- `handleSubscriptionDeleted` from the source: logs only. -/
def handleSubscriptionDeleted : Handler := fun subscription st =>
  let st := pushLog st ("🗑️ Subscription deleted: " ++ subscription.id)
  let st := pushLog st ("👤 Customer: " ++ optStr subscription.customer)
  (st, none)

/-- `handleInvoicePaymentSucceeded` from the source: logs only. -/
def handleInvoicePaymentSucceeded : Handler := fun invoice st =>
  let st := pushLog st ("💳 Invoice payment succeeded: " ++ invoice.id)
  let st := pushLog st ("💵 Amount: " ++ optNum invoice.amount_paid ++ " " ++ optStr invoice.currency)
  (st, none)

/-- `handleInvoicePaymentFailed` from the source: logs only. -/
def handleInvoicePaymentFailed : Handler := fun invoice st =>
  let st := pushLog st ("💳 Invoice payment failed: " ++ invoice.id)
  let st := pushLog st ("💵 Amount: " ++ optNum invoice.amount_due ++ " " ++ optStr invoice.currency)
  (st, none)

/-- The eight per-event-type handlers the route's switch statement names.
Parameterizing the dispatcher over this record lets theorems quantify over
arbitrary (possibly throwing) handlers; `stripeHandlers` below instantiates
it with the source's handlers. -/
structure Handlers where
  checkoutSessionCompleted : Handler
  paymentIntentSucceeded : Handler
  paymentIntentFailed : Handler
  subscriptionCreated : Handler
  subscriptionUpdated : Handler
  subscriptionDeleted : Handler
  invoicePaymentSucceeded : Handler
  invoicePaymentFailed : Handler

/-- The handlers actually defined in `src/routes/webhooks/stripe.js`. -/
def stripeHandlers : Handlers :=
  { checkoutSessionCompleted := handleCheckoutSessionCompleted
    paymentIntentSucceeded := handlePaymentIntentSucceeded
    paymentIntentFailed := handlePaymentIntentFailed
    subscriptionCreated := handleSubscriptionCreated
    subscriptionUpdated := handleSubscriptionUpdated
    subscriptionDeleted := handleSubscriptionDeleted
    invoicePaymentSucceeded := handleInvoicePaymentSucceeded
    invoicePaymentFailed := handleInvoicePaymentFailed }

/-- The event types the switch statement recognizes. -/
def recognizedTypes : List String :=
  ["checkout.session.completed", "payment_intent.succeeded",
   "payment_intent.payment_failed", "customer.subscription.created",
   "customer.subscription.updated", "customer.subscription.deleted",
   "invoice.payment_succeeded", "invoice.payment_failed"]

/-- The switch statement of the route (`switch (event.type)`), transcribed
case by case: runs the handler for the event's type on `event.data.object`,
or the default arm, which only logs the unhandled type. -/
def dispatchWith (h : Handlers) (event : StripeEvent) (st : WorldState) :
    WorldState × Option String :=
  match event.type with
  | "checkout.session.completed" => h.checkoutSessionCompleted event.data.object st
  | "payment_intent.succeeded" => h.paymentIntentSucceeded event.data.object st
  | "payment_intent.payment_failed" => h.paymentIntentFailed event.data.object st
  | "customer.subscription.created" => h.subscriptionCreated event.data.object st
  | "customer.subscription.updated" => h.subscriptionUpdated event.data.object st
  | "customer.subscription.deleted" => h.subscriptionDeleted event.data.object st
  | "invoice.payment_succeeded" => h.invoicePaymentSucceeded event.data.object st
  | "invoice.payment_failed" => h.invoicePaymentFailed event.data.object st
  | _ => (pushLog st ("🔔 Unhandled event type: " ++ event.type), none)

/-- The single handler the switch selects for a given event type (the
default arm for an unrecognized type). -/
def selectHandler (h : Handlers) (t : String) : Handler :=
  match t with
  | "checkout.session.completed" => h.checkoutSessionCompleted
  | "payment_intent.succeeded" => h.paymentIntentSucceeded
  | "payment_intent.payment_failed" => h.paymentIntentFailed
  | "customer.subscription.created" => h.subscriptionCreated
  | "customer.subscription.updated" => h.subscriptionUpdated
  | "customer.subscription.deleted" => h.subscriptionDeleted
  | "invoice.payment_succeeded" => h.invoicePaymentSucceeded
  | "invoice.payment_failed" => h.invoicePaymentFailed
  | _ => fun _ st => (pushLog st ("🔔 Unhandled event type: " ++ t), none)

/-- An HTTP response: status code and body text. -/
structure HttpResponse where
  status : Nat
  body : String
deriving Repr, DecidableEq

/-- Body of `res.status(200).json({ received: true })`. -/
def receivedTrueBody : String := "\x7b\"received\":true\x7d"

/-- Body of `res.status(500).json({ error: 'Webhook handler failed' })`. -/
def handlerFailedBody : String := "\x7b\"error\":\"Webhook handler failed\"\x7d"

/-- HTTP request methods the server's CORS configuration admits. -/
inductive Method where
  | GET | POST | PUT | DELETE | OPTIONS
deriving Repr, DecidableEq

/-- An inbound HTTP request: method, path, headers and the raw body bytes.
`bodyParsed` records whether a JSON body-parsing middleware has replaced
the raw bytes with a parsed object (false as received from the wire). -/
structure Request where
  method : Method
  path : String
  headers : List (String × String)
  body : RawBody
  bodyParsed : Bool := false
deriving Repr, DecidableEq

/-- `req.headers[name]`: the first header with the given name, if any. -/
def getHeader (req : Request) (name : String) : Option String :=
  (req.headers.find? (fun p => p.1 = name)).map (fun p => p.2)

/-- Environment configuration the route reads (`process.env`). -/
structure Env where
  STRIPE_WEBHOOK_SECRET : Option String
deriving Repr, DecidableEq

/-- The `router.post('/stripe', express.raw(...), ...)` handler from
`src/routes/webhooks/stripe.js`, parameterized over the handler record:
reads the `stripe-signature` header and the webhook secret, verifies the
signature over the raw body; on failure logs and answers
400 `Webhook Error: <reason>`; on success logs, runs the switch, and
answers 200 `{received: true}` if the handler returned normally, or logs
and answers 500 `{error: 'Webhook handler failed'}` if it threw. -/
def webhookRouteWith (h : Handlers) (env : Env) (clock : Nat)
    (req : Request) (st : WorldState) : HttpResponse × WorldState :=
  let sig := getHeader req "stripe-signature"
  let endpointSecret := env.STRIPE_WEBHOOK_SECRET
  match constructEvent req.body sig endpointSecret clock with
  | Except.error msg =>
      (⟨400, "Webhook Error: " ++ msg⟩,
       pushLog st ("❌ Webhook signature verification failed: " ++ msg))
  | Except.ok event =>
      let st1 := pushLog st ("✅ Webhook signature verified: " ++ event.type)
      match dispatchWith h event st1 with
      | (st2, none) => (⟨200, receivedTrueBody⟩, st2)
      | (st2, some _) =>
          (⟨500, handlerFailedBody⟩,
           pushLog st2 ("❌ Error handling webhook event " ++ event.type ++ ":"))

/-- The webhook route as shipped: `webhookRouteWith` instantiated with the
source's handlers. -/
def webhookRoute (env : Env) (clock : Nat) (req : Request) (st : WorldState) :
    HttpResponse × WorldState :=
  webhookRouteWith stripeHandlers env clock req st

/-- `express.json()` middleware: parses the body, so the raw bytes are no
longer what reaches later routes unaltered. -/
def expressJson (req : Request) : Request :=
  { req with bodyParsed := true }

/-- The routes mounted after the JSON parser in `src/server.js` (root
endpoint and the 404 handler; the `/api` payment and admin routes are the
spec's out-of-scope collaborators and answer through the same parsed-body
path). -/
def laterRoutes (req : Request) (st : WorldState) : HttpResponse × WorldState :=
  if req.method = Method.GET && req.path = "/" then
    (⟨200, "Rent Control Backend API"⟩, st)
  else
    (⟨404, "Not found: " ++ req.path⟩, st)

/-- The middleware pipeline of `src/server.js`, parameterized over the
webhook handler record: health check first, then the webhook router
(mounted before `express.json()`, so it sees the raw body), then the JSON
parser and the remaining routes. -/
def handleRequestWith (h : Handlers) (env : Env) (clock : Nat)
    (req : Request) (st : WorldState) : HttpResponse × WorldState :=
  if req.method = Method.GET && req.path = "/health" then
    (⟨200, "OK " ++ st.now⟩, st)
  else if req.method = Method.POST && req.path = "/webhooks/stripe" then
    webhookRouteWith h env clock req st
  else
    laterRoutes (expressJson req) st

/-- The server as shipped: the pipeline with the source's handlers. -/
def handleRequest (env : Env) (clock : Nat) (req : Request) (st : WorldState) :
    HttpResponse × WorldState :=
  handleRequestWith stripeHandlers env clock req st

/-- An empty initial world for the concrete scenarios. -/
def stInit : WorldState :=
  { now := "2026-10-12T00:00:00.000Z", log := [], sink := [] }

/-- A concrete webhook signing secret for the scenarios. -/
def secW : String := "whsec_test"

/-- Environment with the signing secret configured. -/
def envW : Env := { STRIPE_WEBHOOK_SECRET := some secW }

/-- Environment with the signing secret absent. -/
def envNoSecret : Env := { STRIPE_WEBHOOK_SECRET := none }

/-- A correctly signed POST to the webhook path carrying event `e`,
signed under `secW` at time `t`. -/
def signedRequest (e : StripeEvent) (t : Nat) : Request :=
  { method := Method.POST
    path := "/webhooks/stripe"
    headers := [("stripe-signature", signHeader t (RawBody.wellFormed e) secW)]
    body := RawBody.wellFormed e }

/-- The §8 scenario event: `payment_intent.succeeded` with payload
`id = pi_1, amount = 5000, currency = usd`. -/
def piEvent : StripeEvent :=
  { type := "payment_intent.succeeded", id := "evt_pi_1", created := 1000,
    data := { object := { id := "pi_1", amount := some 5000, currency := some "usd" } } }

/-- A concrete `checkout.session.completed` event envelope for the
idempotence scenario. -/
def checkoutEvent : StripeEvent :=
  { type := "checkout.session.completed", id := "evt_cs_1", created := 1000,
    data := { object := { id := "cs_1"
                          customer_email := some "tenant@example.com"
                          amount_total := some 9900
                          currency := some "usd"
                          metadata := [("plan", "pro")] } } }

/-- A concrete event whose type is outside the recognized table. -/
def unknownEvent : StripeEvent :=
  { type := "product.created", id := "evt_prod_1", created := 1000,
    data := { object := { id := "prod_1" } } }

/-- A POST to the webhook path with no `stripe-signature` header. -/
def unsignedRequest : Request :=
  { method := Method.POST
    path := "/webhooks/stripe"
    headers := []
    body := RawBody.malformed "not json" }

/-- The source handlers with the payment-intent handler replaced by one that
throws, to exercise the dispatcher's failure propagation. -/
def failingHandlers : Handlers :=
  { stripeHandlers with paymentIntentSucceeded := fun _ st => (st, some "boom") }

/-! ## Helper lemmas -/

/-- The switch runs exactly the handler selected by the event's type. -/
theorem dispatchWith_eq_selectHandler (h : Handlers) (e : StripeEvent) (st : WorldState) :
    dispatchWith h e st = selectHandler h e.type e.data.object st := by
  rcases e with ⟨ty, eid, d, cr⟩
  dsimp only [dispatchWith, selectHandler]
  split <;> rfl

/-- None of the source's handlers ever throws. -/
theorem dispatchWith_stripe_noThrow (e : StripeEvent) (st : WorldState) :
    (dispatchWith stripeHandlers e st).2 = none := by
  unfold dispatchWith
  split <;> rfl

/-- None of the source's handlers writes to the sink. -/
theorem dispatchWith_stripe_sink (e : StripeEvent) (st : WorldState) :
    ((dispatchWith stripeHandlers e st).1).sink = st.sink := by
  unfold dispatchWith
  split <;> rfl

/-- Writing a log line leaves the sink untouched. -/
theorem pushLog_sink (st : WorldState) (line : String) :
    (pushLog st line).sink = st.sink := rfl

/-- A POST to `/webhooks/stripe` is handled by the webhook route, on the
request exactly as received. -/
theorem handleRequestWith_webhook (h : Handlers) (env : Env) (clock : Nat)
    (req : Request) (st : WorldState) (hm : req.method = Method.POST)
    (hp : req.path = "/webhooks/stripe") :
    handleRequestWith h env clock req st = webhookRouteWith h env clock req st := by
  unfold handleRequestWith
  rw [hm, hp]
  rfl

/-- The route on a verification failure: 400, error body, failure log. -/
theorem webhookRouteWith_error (h : Handlers) (env : Env) (clock : Nat)
    (req : Request) (st : WorldState) (msg : String)
    (hv : constructEvent req.body (getHeader req "stripe-signature")
        env.STRIPE_WEBHOOK_SECRET clock = Except.error msg) :
    webhookRouteWith h env clock req st =
      (⟨400, "Webhook Error: " ++ msg⟩,
       pushLog st ("❌ Webhook signature verification failed: " ++ msg)) := by
  unfold webhookRouteWith
  dsimp only
  rw [hv]

/-- The route on a verification success: logs, dispatches, and answers by
the dispatch outcome. -/
theorem webhookRouteWith_ok (h : Handlers) (env : Env) (clock : Nat)
    (req : Request) (st : WorldState) (e : StripeEvent)
    (hv : constructEvent req.body (getHeader req "stripe-signature")
        env.STRIPE_WEBHOOK_SECRET clock = Except.ok e) :
    webhookRouteWith h env clock req st =
      match dispatchWith h e (pushLog st ("✅ Webhook signature verified: " ++ e.type)) with
      | (st2, none) => (⟨200, receivedTrueBody⟩, st2)
      | (st2, some _) =>
          (⟨500, handlerFailedBody⟩,
           pushLog st2 ("❌ Error handling webhook event " ++ e.type ++ ":")) := by
  unfold webhookRouteWith
  dsimp only
  rw [hv]

/-- The shipped webhook route never changes the sink, on any request. -/
theorem webhookRoute_sink (env : Env) (clock : Nat) (req : Request) (st : WorldState) :
    ((webhookRoute env clock req st).2).sink = st.sink := by
  unfold webhookRoute
  rcases hv : constructEvent req.body (getHeader req "stripe-signature")
      env.STRIPE_WEBHOOK_SECRET clock with msg | e
  · rw [webhookRouteWith_error stripeHandlers env clock req st msg hv]
    rfl
  · rw [webhookRouteWith_ok stripeHandlers env clock req st e hv]
    rcases hd : dispatchWith stripeHandlers e
        (pushLog st ("✅ Webhook signature verified: " ++ e.type)) with ⟨st2, o⟩
    have hs := dispatchWith_stripe_sink e (pushLog st ("✅ Webhook signature verified: " ++ e.type))
    rw [hd] at hs
    rcases o with _ | err <;> simpa using hs

/-- Verification cannot succeed without a signing secret. -/
theorem constructEvent_noSecret (b : RawBody) (sig : Option String) (clock : Nat)
    (sec : Option String) (hsec : sec = none ∨ sec = some "") :
    constructEvent b sig sec clock = Except.error "No webhook signing secret provided" := by
  rcases hsec with rfl | rfl
  · rfl
  · simp [constructEvent]

/-! ## Claims -/

/-- C1: every HTTP POST to `/webhooks/stripe` terminates in exactly one of
three outcomes: 200 with body `{"received":true}` when verification and
dispatch both succeed, 400 with a body beginning `Webhook Error: ` followed
by the reason when verification fails, or 500 with body
`{"error":"Webhook handler failed"}` when the invoked handler throws. -/
theorem c1_terminal_outcomes (h : Handlers) (env : Env) (clock : Nat)
    (req : Request) (st : WorldState) (hm : req.method = Method.POST)
    (hp : req.path = "/webhooks/stripe") :
    (handleRequestWith h env clock req st).1 = ⟨200, receivedTrueBody⟩ ∨
    ((handleRequestWith h env clock req st).1.status = 400 ∧
      ∃ reason, (handleRequestWith h env clock req st).1.body = "Webhook Error: " ++ reason) ∨
    (handleRequestWith h env clock req st).1 = ⟨500, handlerFailedBody⟩ := by
  rw [handleRequestWith_webhook h env clock req st hm hp]
  rcases hv : constructEvent req.body (getHeader req "stripe-signature")
      env.STRIPE_WEBHOOK_SECRET clock with msg | e
  · rw [webhookRouteWith_error h env clock req st msg hv]
    exact Or.inr (Or.inl ⟨rfl, msg, rfl⟩)
  · rw [webhookRouteWith_ok h env clock req st e hv]
    rcases hd : dispatchWith h e
        (pushLog st ("✅ Webhook signature verified: " ++ e.type)) with ⟨st2, _ | err⟩
    · exact Or.inl rfl
    · exact Or.inr (Or.inr rfl)

/-- C1 witness: a concrete signed delivery lands in one of the three
terminal outcomes. -/
theorem c1_terminal_outcomes_witness :
    (handleRequestWith stripeHandlers envW 1100 (signedRequest piEvent 1000) stInit).1 =
        ⟨200, receivedTrueBody⟩ ∨
    ((handleRequestWith stripeHandlers envW 1100 (signedRequest piEvent 1000) stInit).1.status = 400 ∧
      ∃ reason, (handleRequestWith stripeHandlers envW 1100 (signedRequest piEvent 1000) stInit).1.body =
        "Webhook Error: " ++ reason) ∨
    (handleRequestWith stripeHandlers envW 1100 (signedRequest piEvent 1000) stInit).1 =
        ⟨500, handlerFailedBody⟩ :=
  c1_terminal_outcomes stripeHandlers envW 1100 (signedRequest piEvent 1000) stInit rfl rfl

/-- C2: a request whose signature verification fails is answered 400 and no
handler runs: the route's entire effect is the failure log line, and the
state visible to the Persistence/Notification Sink is unchanged. -/
theorem c2_rejected_atomic (h : Handlers) (env : Env) (clock : Nat)
    (req : Request) (st : WorldState) (msg : String)
    (hv : constructEvent req.body (getHeader req "stripe-signature")
        env.STRIPE_WEBHOOK_SECRET clock = Except.error msg) :
    webhookRouteWith h env clock req st =
      (⟨400, "Webhook Error: " ++ msg⟩,
       pushLog st ("❌ Webhook signature verification failed: " ++ msg)) ∧
    ((webhookRouteWith h env clock req st).2).sink = st.sink := by
  have he := webhookRouteWith_error h env clock req st msg hv
  exact ⟨he, by rw [he]; rfl⟩

/-- C2 witness: the concrete request with no signature header is rejected
with its sink state untouched. -/
theorem c2_rejected_atomic_witness :
    webhookRouteWith stripeHandlers envW 1100 unsignedRequest stInit =
      (⟨400, "Webhook Error: " ++ "No stripe-signature header value was provided"⟩,
       pushLog stInit ("❌ Webhook signature verification failed: " ++
         "No stripe-signature header value was provided")) ∧
    ((webhookRouteWith stripeHandlers envW 1100 unsignedRequest stInit).2).sink = stInit.sink :=
  c2_rejected_atomic stripeHandlers envW 1100 unsignedRequest stInit
    "No stripe-signature header value was provided" (by rfl)

/-- The switch falls to the default arm on an unrecognized event type. -/
theorem dispatchWith_default (h : Handlers) (e : StripeEvent) (st : WorldState)
    (hnr : e.type ∉ recognizedTypes) :
    dispatchWith h e st = (pushLog st ("🔔 Unhandled event type: " ++ e.type), none) := by
  unfold dispatchWith
  split <;> first
    | rfl
    | (rename_i heq; rw [heq] at hnr; simp [recognizedTypes] at hnr)

/-- C3 counterexample: the claim promises that delivering the same
`checkout.session.completed` envelope twice leaves exactly one logical
payment record at the sink; in the code the handler is a logging
placeholder, so after two deliveries of the concrete `checkoutEvent` the
sink holds zero records, not one, even though each delivery is
acknowledged with 200. -/
theorem c3_zero_records_counterexample :
    (webhookRoute envW 1100 (signedRequest checkoutEvent 1000) stInit).1.status = 200 ∧
    ((webhookRoute envW 1100 (signedRequest checkoutEvent 1000)
        ((webhookRoute envW 1100 (signedRequest checkoutEvent 1000) stInit).2)).2).sink = [] := by
  decide

/-- C3 (amended): delivering the same verified event envelope twice is
effect-equivalent at the Persistence/Notification Sink to delivering it
once — the current handlers write no sink records at all, so the sink
after two deliveries equals the sink after one (and the initial sink),
and two distinct records can never arise. -/
theorem c3_sink_idempotent (env : Env) (clock : Nat) (req : Request)
    (st : WorldState) (e : StripeEvent)
    (hv : constructEvent req.body (getHeader req "stripe-signature")
        env.STRIPE_WEBHOOK_SECRET clock = Except.ok e) :
    ((webhookRoute env clock req st).2).sink = st.sink ∧
    ((webhookRoute env clock req ((webhookRoute env clock req st).2)).2).sink =
      ((webhookRoute env clock req st).2).sink :=
  ⟨webhookRoute_sink env clock req st,
   webhookRoute_sink env clock req ((webhookRoute env clock req st).2)⟩

/-- C3 witness: the two concrete deliveries of `checkoutEvent` leave the
sink pointwise unchanged. -/
theorem c3_sink_idempotent_witness :
    ((webhookRoute envW 1100 (signedRequest checkoutEvent 1000) stInit).2).sink = stInit.sink ∧
    ((webhookRoute envW 1100 (signedRequest checkoutEvent 1000)
        ((webhookRoute envW 1100 (signedRequest checkoutEvent 1000) stInit).2)).2).sink =
      ((webhookRoute envW 1100 (signedRequest checkoutEvent 1000) stInit).2).sink :=
  c3_sink_idempotent envW 1100 (signedRequest checkoutEvent 1000) stInit checkoutEvent (by rfl)

/-- C4 counterexample: the §8 scenario request (valid signature, event type
`payment_intent.succeeded`, payload `id = pi_1, amount = 5000,
currency = usd`) is acknowledged with 200 `received: true`, but no payment
success for `pi_1` is recorded at the sink — the handler is a logging
placeholder, refuting the claim's recorded-success clause. -/
theorem c4_no_sink_record_counterexample :
    (handleRequest envW 1100 (signedRequest piEvent 1000) stInit).1 =
      ⟨200, receivedTrueBody⟩ ∧
    SinkRecord.paymentSuccess "pi_1" ∉
      ((handleRequest envW 1100 (signedRequest piEvent 1000) stInit).2).sink := by
  decide

/-- C4 (amended): the §8 scenario request yields HTTP 200 with body
`{"received":true}` and logs the payment-intent success for `pi_1`;
no record is written to the sink (the handler is a logging placeholder). -/
theorem c4_scenario_logged :
    handleRequest envW 1100 (signedRequest piEvent 1000) stInit =
      (⟨200, receivedTrueBody⟩,
       { now := stInit.now
         log := ["✅ Webhook signature verified: payment_intent.succeeded",
                 "✅ Payment intent succeeded: pi_1",
                 "💵 Amount: 5000 usd"]
         sink := [] }) := by
  decide

/-- C5: a verified event whose type is outside the recognized table runs the
default arm, which only logs the unhandled type and always succeeds: the
response is 200 `{"received":true}`, the sink is untouched, and the only
effect beyond the verification log line is one log record. -/
theorem c5_unrecognized_default (env : Env) (clock : Nat) (req : Request)
    (st : WorldState) (e : StripeEvent)
    (hv : constructEvent req.body (getHeader req "stripe-signature")
        env.STRIPE_WEBHOOK_SECRET clock = Except.ok e)
    (hnr : e.type ∉ recognizedTypes) :
    webhookRoute env clock req st =
      (⟨200, receivedTrueBody⟩,
       pushLog (pushLog st ("✅ Webhook signature verified: " ++ e.type))
         ("🔔 Unhandled event type: " ++ e.type)) ∧
    ((webhookRoute env clock req st).2).sink = st.sink := by
  unfold webhookRoute
  rw [webhookRouteWith_ok stripeHandlers env clock req st e hv,
    dispatchWith_default stripeHandlers e _ hnr]
  exact ⟨rfl, rfl⟩

/-- C5 witness: a concrete `product.created` event is acknowledged by the
default arm with only a log record. -/
theorem c5_unrecognized_default_witness :
    webhookRoute envW 1100 (signedRequest unknownEvent 1000) stInit =
      (⟨200, receivedTrueBody⟩,
       pushLog (pushLog stInit ("✅ Webhook signature verified: " ++ unknownEvent.type))
         ("🔔 Unhandled event type: " ++ unknownEvent.type)) ∧
    ((webhookRoute envW 1100 (signedRequest unknownEvent 1000) stInit).2).sink = stInit.sink :=
  c5_unrecognized_default envW 1100 (signedRequest unknownEvent 1000) stInit unknownEvent
    (by rfl) (by decide)

/-- String concatenation is associative. -/
theorem strAppend_assoc (a b c : String) : a ++ b ++ c = a ++ (b ++ c) := by
  apply String.ext
  simp [String.data_append, List.append_assoc]

/-- C6: the dispatcher invokes exactly one handler per verified event — its
whole effect is that of the single handler the switch selects by the
event's type (or the default arm) — and when that handler throws, the
route reports 500 upward with the handler's post-failure state preserved
apart from the error log line: no other handler runs and no compensation
or rollback of the handler's side effects is attempted. -/
theorem c6_exactly_one_handler :
    (∀ (h : Handlers) (e : StripeEvent) (st : WorldState),
      dispatchWith h e st = selectHandler h e.type e.data.object st) ∧
    (∀ (h : Handlers) (env : Env) (clock : Nat) (req : Request) (st : WorldState)
        (e : StripeEvent) (st2 : WorldState) (err : String),
      constructEvent req.body (getHeader req "stripe-signature")
          env.STRIPE_WEBHOOK_SECRET clock = Except.ok e →
      dispatchWith h e (pushLog st ("✅ Webhook signature verified: " ++ e.type)) =
        (st2, some err) →
      webhookRouteWith h env clock req st =
        (⟨500, handlerFailedBody⟩,
         pushLog st2 ("❌ Error handling webhook event " ++ e.type ++ ":"))) := by
  refine ⟨dispatchWith_eq_selectHandler, ?_⟩
  intro h env clock req st e st2 err hv hd
  rw [webhookRouteWith_ok h env clock req st e hv, hd]

/-- C6 witness: concrete dispatch equals the selected handler's effect, and
with the payment-intent handler replaced by a throwing one, the concrete
delivery is answered 500 with the handler's state kept. -/
theorem c6_exactly_one_handler_witness :
    dispatchWith stripeHandlers piEvent stInit =
      selectHandler stripeHandlers piEvent.type piEvent.data.object stInit ∧
    webhookRouteWith failingHandlers envW 1100 (signedRequest piEvent 1000) stInit =
      (⟨500, handlerFailedBody⟩,
       pushLog (pushLog stInit ("✅ Webhook signature verified: " ++ piEvent.type))
         ("❌ Error handling webhook event " ++ piEvent.type ++ ":")) :=
  ⟨c6_exactly_one_handler.1 stripeHandlers piEvent stInit,
   c6_exactly_one_handler.2 failingHandlers envW 1100 (signedRequest piEvent 1000) stInit
     piEvent (pushLog stInit ("✅ Webhook signature verified: " ++ piEvent.type)) "boom"
     (by rfl) (by rfl)⟩

/-- C7: signature verification is a deterministic pure function of the raw
body, the signature header and the shared secret plus the current
wall-clock — equal inputs give the same envelope or the same failure — and
the HTTP layer hands the webhook route the request exactly as received,
before any JSON body parsing runs. -/
theorem c7_verifier_pure :
    (∀ (b b2 : RawBody) (sig sig2 : Option String) (sec sec2 : Option String) (c c2 : Nat),
      b = b2 → sig = sig2 → sec = sec2 → c = c2 →
      constructEvent b sig sec c = constructEvent b2 sig2 sec2 c2) ∧
    (∀ (h : Handlers) (env : Env) (clock : Nat) (req : Request) (st : WorldState),
      req.method = Method.POST → req.path = "/webhooks/stripe" →
      handleRequestWith h env clock req st = webhookRouteWith h env clock req st) := by
  constructor
  · intro b b2 sig sig2 sec sec2 c c2 hb hs hk hc
    rw [hb, hs, hk, hc]
  · intro h env clock req st hm hp
    exact handleRequestWith_webhook h env clock req st hm hp

/-- C7 witness: determinism and the unparsed-body routing at concrete
inputs. -/
theorem c7_verifier_pure_witness :
    constructEvent (RawBody.malformed "x") none (some secW) 0 =
      constructEvent (RawBody.malformed "x") none (some secW) 0 ∧
    handleRequestWith stripeHandlers envW 1100 unsignedRequest stInit =
      webhookRouteWith stripeHandlers envW 1100 unsignedRequest stInit :=
  ⟨c7_verifier_pure.1 (RawBody.malformed "x") (RawBody.malformed "x") none none
      (some secW) (some secW) 0 0 rfl rfl rfl rfl,
   c7_verifier_pure.2 stripeHandlers envW 1100 unsignedRequest stInit rfl rfl⟩

/-- C8: a POST to `/webhooks/stripe` with the `stripe-signature` header
absent is answered 400 with a body starting with `Webhook Error:`, whatever
the body content or configured secret. -/
theorem c8_missing_header (env : Env) (clock : Nat) (req : Request) (st : WorldState)
    (hm : req.method = Method.POST) (hp : req.path = "/webhooks/stripe")
    (hh : getHeader req "stripe-signature" = none) :
    (handleRequest env clock req st).1.status = 400 ∧
    ∃ rest, (handleRequest env clock req st).1.body = "Webhook Error:" ++ rest := by
  unfold handleRequest
  rw [handleRequestWith_webhook stripeHandlers env clock req st hm hp]
  have hex : ∃ msg, constructEvent req.body (getHeader req "stripe-signature")
      env.STRIPE_WEBHOOK_SECRET clock = Except.error msg := by
    rw [hh]
    rcases env.STRIPE_WEBHOOK_SECRET with _ | sec
    · exact ⟨_, rfl⟩
    · unfold constructEvent
      dsimp only
      split
      · exact ⟨_, rfl⟩
      · exact ⟨_, rfl⟩
  obtain ⟨msg, hv⟩ := hex
  rw [webhookRouteWith_error stripeHandlers env clock req st msg hv]
  refine ⟨rfl, " " ++ msg, ?_⟩
  rw [← strAppend_assoc]
  rfl

/-- C8 witness: the concrete header-less request is rejected 400 with the
`Webhook Error:` body. -/
theorem c8_missing_header_witness :
    (handleRequest envW 1100 unsignedRequest stInit).1.status = 400 ∧
    ∃ rest, (handleRequest envW 1100 unsignedRequest stInit).1.body =
      "Webhook Error:" ++ rest :=
  c8_missing_header envW 1100 unsignedRequest stInit rfl rfl rfl

/-- C9: every handler of the shipped registry is total — dispatch never
throws — so the 500 branch is unreachable: every successfully verified
event envelope is acknowledged 200 `{"received":true}`. -/
theorem c9_verified_never_500 :
    (∀ (e : StripeEvent) (st : WorldState), (dispatchWith stripeHandlers e st).2 = none) ∧
    (∀ (env : Env) (clock : Nat) (req : Request) (st : WorldState) (e : StripeEvent),
      constructEvent req.body (getHeader req "stripe-signature")
          env.STRIPE_WEBHOOK_SECRET clock = Except.ok e →
      (webhookRoute env clock req st).1 = ⟨200, receivedTrueBody⟩) := by
  refine ⟨dispatchWith_stripe_noThrow, ?_⟩
  intro env clock req st e hv
  unfold webhookRoute
  rw [webhookRouteWith_ok stripeHandlers env clock req st e hv]
  rcases hd : dispatchWith stripeHandlers e
      (pushLog st ("✅ Webhook signature verified: " ++ e.type)) with ⟨st2, o⟩
  have hn := dispatchWith_stripe_noThrow e
    (pushLog st ("✅ Webhook signature verified: " ++ e.type))
  rw [hd] at hn
  dsimp only at hn
  subst hn
  rfl

/-- C9 witness: the concrete verified delivery is acknowledged 200. -/
theorem c9_verified_never_500_witness :
    (dispatchWith stripeHandlers piEvent stInit).2 = none ∧
    (webhookRoute envW 1100 (signedRequest piEvent 1000) stInit).1 =
      ⟨200, receivedTrueBody⟩ :=
  ⟨c9_verified_never_500.1 piEvent stInit,
   c9_verified_never_500.2 envW 1100 (signedRequest piEvent 1000) stInit piEvent (by rfl)⟩

/-- C10: when the webhook signing secret is absent or empty, every POST to
`/webhooks/stripe` — even one carrying a signature valid under some
secret — is rejected 400 as a verification failure; the missing
configuration never yields a 500 and no handler runs (the sink is
untouched and the only effect is the failure log line). -/
theorem c10_missing_secret (h : Handlers) (env : Env) (clock : Nat) (req : Request)
    (st : WorldState)
    (hsec : env.STRIPE_WEBHOOK_SECRET = none ∨ env.STRIPE_WEBHOOK_SECRET = some "")
    (hm : req.method = Method.POST) (hp : req.path = "/webhooks/stripe") :
    handleRequestWith h env clock req st =
      (⟨400, "Webhook Error: " ++ "No webhook signing secret provided"⟩,
       pushLog st ("❌ Webhook signature verification failed: " ++
         "No webhook signing secret provided")) ∧
    ((handleRequestWith h env clock req st).2).sink = st.sink := by
  have hv := constructEvent_noSecret req.body (getHeader req "stripe-signature") clock
    env.STRIPE_WEBHOOK_SECRET hsec
  have hr := handleRequestWith_webhook h env clock req st hm hp
  rw [hr, webhookRouteWith_error h env clock req st _ hv]
  exact ⟨rfl, rfl⟩

/-- C10 witness: with no secret configured, the concrete request whose
signature is valid under `secW` is still rejected 400. -/
theorem c10_missing_secret_witness :
    handleRequestWith stripeHandlers envNoSecret 1100 (signedRequest piEvent 1000) stInit =
      (⟨400, "Webhook Error: " ++ "No webhook signing secret provided"⟩,
       pushLog stInit ("❌ Webhook signature verification failed: " ++
         "No webhook signing secret provided")) ∧
    ((handleRequestWith stripeHandlers envNoSecret 1100
        (signedRequest piEvent 1000) stInit).2).sink = stInit.sink :=
  c10_missing_secret stripeHandlers envNoSecret 1100 (signedRequest piEvent 1000) stInit
    (Or.inl rfl) rfl rfl

end Webhook
